import Mathlib

/-!
Shallow embedding of the role-gated request dispatcher of
`enterprise_mcp_mvp_demo`, translated from
`src/enterprise_mcp_mvp_demo/db/models.py`,
`src/enterprise_mcp_mvp_demo/db/db_manager.py` and
`src/enterprise_mcp_mvp_demo/routing/request_router.py`.

The persistence store (an SQLite database accessed through SQLAlchemy) is
modelled as lists of rows; `Query.first()` is `List.find?`.  Python integers
are `Int`; primary keys are `Nat` assigned as `max id + 1` (SQLite rowid
behaviour).  External collaborators (the OpenAI classifier call and the
backend MCP session) are modelled by outcome parameters, since the dispatcher
only observes their returned value or their raising an exception.
-/

namespace EnterpriseMcp

/-- Row of the `users` table (`models.py`, class `User`):
`id` primary key, `username` unique, `role` an integer level. -/
structure User where
  id : Nat
  username : String
  role : Int
  deriving Repr, DecidableEq

/-- Row of the `servers` table (`models.py`, class `Server`):
`id` primary key, `name` unique, `required_role` the minimum level. -/
structure Server where
  id : Nat
  name : String
  required_role : Int
  deriving Repr, DecidableEq

/-- Row of the `role_hierarchy` table (`models.py`, class `RoleHierarchy`). -/
structure RoleHierarchy where
  id : Nat
  role_name : String
  level : Int
  deriving Repr, DecidableEq

/-- The persistence store: the three tables managed by `DatabaseManager`. -/
structure DB where
  users : List User
  servers : List Server
  roles : List RoleHierarchy
  deriving Repr, DecidableEq

/-- Next autoincremented primary key for the `users` table
(SQLite assigns `max rowid + 1`). -/
def nextUserId (db : DB) : Nat :=
  db.users.foldr (fun u m => max u.id m) 0 + 1

/-- Next autoincremented primary key for the `servers` table. -/
def nextServerId (db : DB) : Nat :=
  db.servers.foldr (fun s m => max s.id m) 0 + 1

/-- Next autoincremented primary key for the `role_hierarchy` table. -/
def nextRoleId (db : DB) : Nat :=
  db.roles.foldr (fun r m => max r.id m) 0 + 1

/-- `DatabaseManager.create_user`: insert a row and return it (the state
and the refreshed row). -/
def create_user (db : DB) (username : String) (role : Int) : DB × User :=
  let user : User := ⟨nextUserId db, username, role⟩
  ({ db with users := db.users ++ [user] }, user)

/-- `DatabaseManager.get_user`: `query(User).filter(User.id == user_id).first()`. -/
def get_user (db : DB) (user_id : Nat) : Option User :=
  db.users.find? (fun u => u.id == user_id)

/-- `DatabaseManager.get_user_by_name`:
`query(User).filter(User.username == username).first()`. -/
def get_user_by_name (db : DB) (username : String) : Option User :=
  db.users.find? (fun u => u.username == username)

/-- `DatabaseManager.update_user_role`: look the user up by id; if found,
set `user.role = new_role` and commit (ids are primary keys, so the single
mutated row is the one matching `user_id`); return the refreshed row. -/
def update_user_role (db : DB) (user_id : Nat) (new_role : Int) :
    DB × Option User :=
  match get_user db user_id with
  | none => (db, none)
  | some user =>
      ({ db with
          users := db.users.map
            (fun u => if u.id == user_id then { u with role := new_role } else u) },
        some { user with role := new_role })

/-- `DatabaseManager.create_server`: insert a row and return it. -/
def create_server (db : DB) (name : String) (required_role : Int) : DB × Server :=
  let server : Server := ⟨nextServerId db, name, required_role⟩
  ({ db with servers := db.servers ++ [server] }, server)

/-- `DatabaseManager.get_server`: first row with the given id. -/
def get_server (db : DB) (server_id : Nat) : Option Server :=
  db.servers.find? (fun s => s.id == server_id)

/-- `DatabaseManager.get_server_by_name`: first row with the given name. -/
def get_server_by_name (db : DB) (server_name : String) : Option Server :=
  db.servers.find? (fun s => s.name == server_name)

/-- `DatabaseManager.update_server_role`: look the server up by id; if found,
set `server.required_role = new_required_role` and commit; return the
refreshed row. -/
def update_server_role (db : DB) (server_id : Nat) (new_required_role : Int) :
    DB × Option Server :=
  match get_server db server_id with
  | none => (db, none)
  | some server =>
      ({ db with
          servers := db.servers.map
            (fun s => if s.id == server_id
              then { s with required_role := new_required_role } else s) },
        some { server with required_role := new_required_role })

/-- `DatabaseManager.create_role`: insert a row and return it. -/
def create_role (db : DB) (role_name : String) (level : Int) :
    DB × RoleHierarchy :=
  let role : RoleHierarchy := ⟨nextRoleId db, role_name, level⟩
  ({ db with roles := db.roles ++ [role] }, role)

/-- `DatabaseManager.get_role`: first row with the given id. -/
def get_role (db : DB) (role_id : Nat) : Option RoleHierarchy :=
  db.roles.find? (fun r => r.id == role_id)

/-- `DatabaseManager.get_role_by_name`: first row with the given name. -/
def get_role_by_name (db : DB) (role_name : String) : Option RoleHierarchy :=
  db.roles.find? (fun r => r.role_name == role_name)

/-- `DatabaseManager.can_access_server`: look up both rows by id; if both
exist return `user.role >= server.required_role`, otherwise `False`. -/
def can_access_server (db : DB) (user_id server_id : Nat) : Bool :=
  match get_user db user_id, get_server db server_id with
  | some user, some server => decide (user.role ≥ server.required_role)
  | _, _ => false

end EnterpriseMcp

namespace EnterpriseMcp

/-- The configuration dictionary, restricted to the keys the dispatcher
reads.  `categorize_question_prompt` is `none` when the key is absent
(`configuration.get(..., None)` in `categorize_question`); the backend path
keys play no role in the dispatcher's control flow and are omitted. -/
structure Config where
  categorize_question_prompt : Option String
  deriving Repr, DecidableEq

/-- Outcome of the external LLM call inside `categorize_question`: either
the stripped category text of the completion, or an exception raised
anywhere in the `try` block after the prompt was found (malformed template
`KeyError`, upstream API failure, ...). -/
inductive ClassifierOutcome where
  | ok (category : String)
  | exn
  deriving Repr, DecidableEq

/-- `RequestRouter.categorize_question`.  When the
`categorize_question_prompt` key is missing the function prints a message
and executes a bare `return`, i.e. returns Python `None` (modelled `none`).
When the LLM call succeeds it returns the stripped category; when anything
in the `try` block raises, both `except` arms return the string
`"Unknown"`. -/
def categorize_question (config : Config) (llm : ClassifierOutcome) :
    Option String :=
  match config.categorize_question_prompt with
  | none => none
  | some _ =>
      match llm with
      | .ok category => some category
      | .exn => some "Unknown"

/-- `RequestRouter.check_user_role`.  Looks the user and the server up by
name, then delegates to `can_access_server`.  If either lookup returns
`None`, the subsequent attribute access (`user.username` / `server.name`
in the `print` calls) raises `AttributeError`, which the broad
`except Exception` handler converts into `False`. -/
def check_user_role (db : DB) (username server_name : String) : Bool :=
  match get_user_by_name db username, get_server_by_name db server_name with
  | some user, some server => can_access_server db user.id server.id
  | _, _ => false

/-- Outcome of the backend MCP session for one request:
`connect_to_server` followed by `process_query` either produces a response
string or raises (connection error, timeout, query failure). -/
inductive BackendOutcome where
  | ok (response : String)
  | exn (msg : String)
  deriving Repr, DecidableEq

/-- A Python exception escaping `route_request` unhandled. -/
inductive PyError where
  /-- `AttributeError` from calling `.lower()` on `None`. -/
  | attributeError
  /-- An exception raised by the backend session's connect or query. -/
  | backendError (msg : String)
  deriving Repr, DecidableEq

/-- The `RequestResponse.to_dict()` value: a `{status, message}` pair. -/
structure Response where
  status : String
  message : String
  deriving Repr, DecidableEq

/-- Observable behaviour of one `route_request` call: the returned
dictionary (or the exception that escaped), whether `check_user_role` was
invoked and what it returned, and whether a backend MCP session was
instantiated (and hence connected and queried). -/
structure RouteTrace where
  result : Except PyError Response
  roleCheckCalled : Bool
  roleCheckResult : Option Bool
  sessionOpened : Bool
  deriving Repr

/-- ASCII lowercasing of one character (`str.lower()` on the ASCII category
labels the dispatcher handles). -/
def lowerChar (c : Char) : Char :=
  if 'A' ≤ c ∧ c ≤ 'Z' then Char.ofNat (c.toNat + 32) else c

/-- Python `category.lower()`, restricted to ASCII. -/
def pyLower (s : String) : String :=
  ⟨s.data.map lowerChar⟩

/-- `p` is an initial segment of `s` (helper for substring containment). -/
def startsWithList : List Char → List Char → Bool
  | _, [] => true
  | [], _ :: _ => false
  | c :: cs, p :: ps => c == p && startsWithList cs ps

/-- `p` occurs contiguously inside `s` (helper for substring containment). -/
def containsList : List Char → List Char → Bool
  | [], p => p.isEmpty
  | c :: cs, p => startsWithList (c :: cs) p || containsList cs p

/-- Python substring containment `pat in s`. -/
def containsSub (s pat : String) : Bool :=
  containsList s.data pat.data

/-- The denial message built in `route_request`
(`f"User {username} does not meet criteria to access the {category} server."`). -/
def denialMessage (username category : String) : String :=
  "User " ++ username ++ " does not meet criteria to access the " ++
    category ++ " server."

/-- `RequestRouter.route_request`.  Control flow of the source, line by
line: classify; compare the category against the literal `"Unknown_"`; on
mismatch call `check_user_role` with the lowercased category and return the
denial response when it is false; otherwise dispatch on whether the
lowercased category contains `"weather"` or `"filesystem"`, opening a fresh
MCP session (connect, then query) whose failure propagates unhandled, and
fall through to the fixed not-found response otherwise.  When
`categorize_question` returned `None`, the comparison `None == "Unknown_"`
is `False` and `category.lower()` then raises `AttributeError`. -/
def route_request (config : Config) (db : DB) (llm : ClassifierOutcome)
    (backend : BackendOutcome) (username question : String) : RouteTrace :=
  match categorize_question config llm with
  | none =>
      { result := .error .attributeError
        roleCheckCalled := false
        roleCheckResult := none
        sessionOpened := false }
  | some category =>
      if category == "Unknown_" then
        { result := .ok ⟨"error", "Failed to categorize question"⟩
          roleCheckCalled := false
          roleCheckResult := none
          sessionOpened := false }
      else
        let access := check_user_role db username (pyLower category)
        if !access then
          { result := .ok ⟨"success", denialMessage username category⟩
            roleCheckCalled := true
            roleCheckResult := some access
            sessionOpened := false }
        else if containsSub (pyLower category) "weather" ||
            containsSub (pyLower category) "filesystem" then
          match backend with
          | .ok response =>
              { result := .ok ⟨"success", response⟩
                roleCheckCalled := true
                roleCheckResult := some access
                sessionOpened := true }
          | .exn msg =>
              { result := .error (.backendError msg)
                roleCheckCalled := true
                roleCheckResult := some access
                sessionOpened := true }
        else
          { result := .ok
              ⟨"success",
                "A server that corresponds to your question can not be found."⟩
            roleCheckCalled := true
            roleCheckResult := some access
            sessionOpened := false }

end EnterpriseMcp

namespace EnterpriseMcp

/-! ### Concrete store used by the witnesses -/

/-- A concrete store: alice (role 3), bob (role 1); a weather server
requiring role 2 and a filesystem server requiring role 5; one role row. -/
def exDB : DB :=
  ⟨[⟨1, "alice", 3⟩, ⟨2, "bob", 1⟩],
   [⟨1, "weather", 2⟩, ⟨2, "filesystem", 5⟩],
   [⟨1, "admin", 3⟩]⟩

/-- A concrete configuration holding the prompt template key. -/
def exConfig : Config := ⟨some "Categorize this question: {question}"⟩

/-! ### Helper lemmas -/

/-- Every element's key is bounded by the running `foldr max`. -/
theorem le_foldr_max {α : Type} (f : α → Nat) (l : List α) (x : α)
    (hx : x ∈ l) : f x ≤ l.foldr (fun a m => max (f a) m) 0 := by
  induction l with
  | nil => cases hx
  | cons a as ih =>
      rcases List.mem_cons.mp hx with h | h
      · subst h; exact Nat.le_max_left _ _
      · exact Nat.le_trans (ih h) (Nat.le_max_right _ _)

/-- `find?` over an append whose first part has no match. -/
theorem find?_append_none {α : Type} (p : α → Bool) (l₁ l₂ : List α)
    (h : l₁.find? p = none) : (l₁ ++ l₂).find? p = l₂.find? p := by
  rw [List.find?_append, h, Option.none_or]

/-- `find?` commutes with a map that preserves the predicate. -/
theorem find?_map_pres {α : Type} (p : α → Bool) (g : α → α) (l : List α)
    (hp : ∀ x, p (g x) = p x) :
    (l.map g).find? p = (l.find? p).map g := by
  induction l with
  | nil => rfl
  | cons a as ih =>
      simp only [List.map_cons, List.find?_cons, hp a]
      cases p a with
      | true => rfl
      | false => exact ih

/-- C4's core claim, stated at the found rows. -/
theorem can_access_server_eq (db : DB) (user_id server_id : Nat)
    (user : User) (server : Server)
    (hu : get_user db user_id = some user)
    (hs : get_server db server_id = some server) :
    can_access_server db user_id server_id =
      decide (user.role ≥ server.required_role) := by
  unfold can_access_server
  rw [hu, hs]

/-! ### C4 -/

/-- C4: for every user id and server id whose `User` and `Server` records
both exist in the store, `can_access_server user_id server_id` returns
`True` if and only if `user.role >= server.required_role`. -/
theorem C4_can_access_server_iff (db : DB) (user_id server_id : Nat)
    (user : User) (server : Server)
    (hu : get_user db user_id = some user)
    (hs : get_server db server_id = some server) :
    can_access_server db user_id server_id = true ↔
      user.role ≥ server.required_role := by
  rw [can_access_server_eq db user_id server_id user server hu hs]
  exact decide_eq_true_iff

/-- Witness for C4 at the concrete store: alice (role 3) and the weather
server (required role 2). -/
theorem C4_witness :
    can_access_server exDB 1 1 = true ↔ (3 : Int) ≥ (2 : Int) :=
  C4_can_access_server_iff exDB 1 1 ⟨1, "alice", 3⟩ ⟨1, "weather", 2⟩ rfl rfl

/-! ### C5 -/

/-- C5: access is monotonic in the user's role level: when both users'
records are found, if the lower-role user is granted access then so is the
higher-role user (hence a grant for a lower role with a denial for a
higher role never happens), and a user whose role reaches the server's
required level is granted access outright. -/
theorem C5_access_monotonic (db : DB) (uid1 uid2 sid : Nat)
    (u1 u2 : User) (s : Server)
    (h1 : get_user db uid1 = some u1)
    (h2 : get_user db uid2 = some u2)
    (hs : get_server db sid = some s)
    (hr : u1.role ≤ u2.role) :
    (can_access_server db uid1 sid = true →
      can_access_server db uid2 sid = true) ∧
    (s.required_role ≤ u2.role → can_access_server db uid2 sid = true) := by
  rw [can_access_server_eq db uid1 sid u1 s h1 hs,
    can_access_server_eq db uid2 sid u2 s h2 hs]
  constructor
  · intro hacc
    have := of_decide_eq_true hacc
    exact decide_eq_true (le_trans this hr)
  · intro hreq
    exact decide_eq_true hreq

/-- Witness for C5 at the concrete store: bob (role 1) versus alice
(role 3) on the weather server (required role 2). -/
theorem C5_witness :
    (can_access_server exDB 2 1 = true → can_access_server exDB 1 1 = true) ∧
    ((2 : Int) ≤ (3 : Int) → can_access_server exDB 1 1 = true) :=
  C5_access_monotonic exDB 2 1 1 ⟨2, "bob", 1⟩ ⟨1, "alice", 3⟩
    ⟨1, "weather", 2⟩ rfl rfl rfl (by decide)

end EnterpriseMcp

namespace EnterpriseMcp

/-! ### Dispatcher helper lemmas -/

/-- When the category lookup finds no server row, the broad exception
handler in `check_user_role` yields `False`. -/
theorem check_user_role_eq_false_of_no_server (db : DB)
    (username server_name : String)
    (h : get_server_by_name db server_name = none) :
    check_user_role db username server_name = false := by
  unfold check_user_role
  rw [h]
  cases get_user_by_name db username <;> rfl

/-- When the username lookup finds no user row, the broad exception
handler in `check_user_role` yields `False`. -/
theorem check_user_role_eq_false_of_no_user (db : DB)
    (username server_name : String)
    (h : get_user_by_name db username = none) :
    check_user_role db username server_name = false := by
  unfold check_user_role
  rw [h]

/-- A request that passes the (mis-spelled) sentinel guard and fails the
role check gets the fixed denial trace. -/
theorem route_request_denied (config : Config) (db : DB)
    (llm : ClassifierOutcome) (backend : BackendOutcome)
    (username question category : String)
    (hcat : categorize_question config llm = some category)
    (hne : category ≠ "Unknown_")
    (hdenied : check_user_role db username (pyLower category) = false) :
    route_request config db llm backend username question =
      { result := .ok ⟨"success", denialMessage username category⟩
        roleCheckCalled := true
        roleCheckResult := some false
        sessionOpened := false } := by
  simp [route_request, hcat, hne, hdenied]

/-! ### C1 -/

/-- C1: a backend session is instantiated (hence connected and queried)
only on requests whose classification produced a category that passed the
sentinel guard and whose access check `check_user_role` returned `True`
on the lowercased category; and a request whose classification failed
(missing prompt, i.e. `None`, or the classifier's `"Unknown"` failure
sentinel) never opens a backend session. -/
theorem C1_no_unauthorized_dispatch (config : Config) (db : DB)
    (llm : ClassifierOutcome) (backend : BackendOutcome)
    (username question : String) :
    ((route_request config db llm backend username question).sessionOpened
        = true →
      ∃ category, categorize_question config llm = some category ∧
        category ≠ "Unknown_" ∧
        check_user_role db username (pyLower category) = true) ∧
    ((categorize_question config llm = none ∨
        categorize_question config llm = some "Unknown") →
      (route_request config db llm backend username question).sessionOpened
        = false) := by
  constructor
  · intro hopen
    cases hcat : categorize_question config llm with
    | none => rw [route_request, hcat] at hopen; simp at hopen
    | some category =>
        refine ⟨category, rfl, ?_⟩
        rw [route_request, hcat] at hopen
        by_cases hne : category = "Unknown_"
        · simp [hne] at hopen
        · refine ⟨hne, ?_⟩
          simp only [show (category == "Unknown_") = false by simp [hne],
            if_false] at hopen
          cases hacc : check_user_role db username (pyLower category) with
          | false => rw [hacc] at hopen; simp at hopen
          | true =>
              rfl
  · intro hfail
    rcases hfail with hcat | hcat
    · rw [route_request, hcat]
    · rw [route_request, hcat]
      simp only [show ("Unknown" == "Unknown_") = false by decide, if_false]
      cases hacc : check_user_role db username (pyLower "Unknown") with
      | false => simp [hacc]
      | true =>
          simp [hacc,
            show containsSub (pyLower "Unknown") "weather" = false by decide,
            show containsSub (pyLower "Unknown") "filesystem" = false
              by decide]

end EnterpriseMcp

namespace EnterpriseMcp

/-- Witness for C1: a classifier failure (the `"Unknown"` sentinel) on the
concrete store opens no backend session. -/
theorem C1_witness :
    (route_request exConfig exDB .exn (.ok "72F") "alice" "q").sessionOpened
      = false :=
  (C1_no_unauthorized_dispatch exConfig exDB .exn (.ok "72F") "alice" "q").2
    (Or.inr rfl)

/-! ### C2 -/

/-- C2 fails on the code: the classifier's failure sentinel is
`"Unknown"`, but `route_request` guards on the literal `"Unknown_"`, so a
request whose classification failed still invokes `check_user_role` (a
server lookup on `"unknown"`) and returns the ordinary denial response
instead of the `{status: "error"}` categorization-failure response. -/
theorem C2_sentinel_mismatch_eval :
    categorize_question exConfig .exn = some "Unknown" ∧
    (route_request exConfig exDB .exn (.ok "resp") "alice" "q").roleCheckCalled
      = true ∧
    (route_request exConfig exDB .exn (.ok "resp") "alice" "q").result =
      .ok ⟨"success", denialMessage "alice" "Unknown"⟩ :=
  ⟨rfl, rfl, rfl⟩

/-! ### C3 -/

/-- C3: whenever the access check returns false for the lowercased
category of a classified request, `route_request` returns top-level status
`"success"` with the denial message naming the user and the category. -/
theorem C3_denial_names_user_and_category (config : Config) (db : DB)
    (llm : ClassifierOutcome) (backend : BackendOutcome)
    (username question category : String)
    (hcat : categorize_question config llm = some category)
    (hne : category ≠ "Unknown_")
    (hdenied : check_user_role db username (pyLower category) = false) :
    (route_request config db llm backend username question).result =
      .ok ⟨"success",
        "User " ++ username ++ " does not meet criteria to access the " ++
          category ++ " server."⟩ := by
  rw [route_request_denied config db llm backend username question category
    hcat hne hdenied]
  exact congrArg Except.ok (congrArg (Response.mk "success") rfl)

/-- Witness for C3: bob (role 1) is denied the weather server
(required role 2) on the concrete store. -/
theorem C3_witness :
    (route_request exConfig exDB (.ok "Weather") (.ok "72F") "bob" "q").result
      = .ok ⟨"success",
          "User bob does not meet criteria to access the Weather server."⟩ :=
  C3_denial_names_user_and_category exConfig exDB (.ok "Weather") (.ok "72F")
    "bob" "q" "Weather" rfl (by decide) rfl

/-! ### C6 -/

/-- C6: a classified request whose lowercased category names no existing
server is treated exactly like an authorization denial: `check_user_role`
returns `False` (no exception escapes) and `route_request` returns the
ordinary denial response, not a fault. -/
theorem C6_missing_server_is_denial (config : Config) (db : DB)
    (llm : ClassifierOutcome) (backend : BackendOutcome)
    (username question category : String)
    (hcat : categorize_question config llm = some category)
    (hne : category ≠ "Unknown_")
    (hns : get_server_by_name db (pyLower category) = none) :
    check_user_role db username (pyLower category) = false ∧
    (route_request config db llm backend username question).result =
      .ok ⟨"success", denialMessage username category⟩ := by
  have hfalse :=
    check_user_role_eq_false_of_no_server db username (pyLower category) hns
  exact ⟨hfalse, by
    rw [route_request_denied config db llm backend username question category
      hcat hne hfalse]⟩

/-- Witness for C6: category `"Printer"` resolves to no server row in the
concrete store. -/
theorem C6_witness :
    check_user_role exDB "alice" (pyLower "Printer") = false ∧
    (route_request exConfig exDB (.ok "Printer") (.ok "r") "alice" "q").result
      = .ok ⟨"success", denialMessage "alice" "Printer"⟩ :=
  C6_missing_server_is_denial exConfig exDB (.ok "Printer") (.ok "r")
    "alice" "q" "Printer" rfl (by decide) rfl

/-! ### C7 -/

/-- Counterexample to C7: on the concrete store alice is authorized for
the weather server, the backend session raises `"timeout"`, and
`route_request` lets the exception escape unhandled instead of returning
any `{status, message}` error response. -/
theorem C7_counterexample :
    check_user_role exDB "alice" (pyLower "Weather") = true ∧
    (route_request exConfig exDB (.ok "Weather") (.exn "timeout")
        "alice" "q").result = .error (.backendError "timeout") :=
  ⟨rfl, rfl⟩

/-- C7 amended: when the backend session's connect or query raises for an
authorized weather or filesystem request, the exception propagates out of
`route_request` unhandled; no `DispatchFailure` error response is
produced. -/
theorem C7_amended_backend_failure_escapes (config : Config) (db : DB)
    (llm : ClassifierOutcome) (username question category msg : String)
    (hcat : categorize_question config llm = some category)
    (hne : category ≠ "Unknown_")
    (hauth : check_user_role db username (pyLower category) = true)
    (hkind : (containsSub (pyLower category) "weather" ||
      containsSub (pyLower category) "filesystem") = true) :
    (route_request config db llm (.exn msg) username question).result =
      .error (.backendError msg) := by
  simp [route_request, hcat, hne, hauth, hkind]

/-- Witness for the amended C7 at a concrete authorized weather request. -/
theorem C7_amended_witness :
    (route_request exConfig exDB (.ok "Weather") (.exn "boom")
        "alice" "q").result = .error (.backendError "boom") :=
  C7_amended_backend_failure_escapes exConfig exDB (.ok "Weather")
    "alice" "q" "Weather" "boom" rfl (by decide) rfl (by decide)

/-! ### C8 -/

/-- C8 fails on the code: with the `categorize_question_prompt` key absent,
`categorize_question` returns Python `None`; `route_request` then compares
`None == "Unknown_"` (false) and calls `None.lower()`, so an
`AttributeError` escapes the request handler instead of a
`{status, message}` response. -/
theorem C8_missing_prompt_key_crashes :
    categorize_question ⟨none⟩ (.ok "Weather") = none ∧
    (route_request ⟨none⟩ exDB (.ok "Weather") (.ok "resp")
        "alice" "q").result = .error .attributeError :=
  ⟨rfl, rfl⟩

/-! ### C10 -/

/-- C10: for a username with no user record and any successfully
classified category, the broad exception handler makes `check_user_role`
return `False`, and `route_request` answers with the ordinary denial
response naming that unknown username, not a fault. -/
theorem C10_unknown_user_denied (config : Config) (db : DB)
    (llm : ClassifierOutcome) (backend : BackendOutcome)
    (username question category : String)
    (hcat : categorize_question config llm = some category)
    (hne : category ≠ "Unknown_")
    (hnouser : get_user_by_name db username = none) :
    check_user_role db username (pyLower category) = false ∧
    (route_request config db llm backend username question).result =
      .ok ⟨"success", denialMessage username category⟩ := by
  have hfalse :=
    check_user_role_eq_false_of_no_user db username (pyLower category) hnouser
  exact ⟨hfalse, by
    rw [route_request_denied config db llm backend username question category
      hcat hne hfalse]⟩

/-- Witness for C10: `"mallory"` has no user row in the concrete store. -/
theorem C10_witness :
    check_user_role exDB "mallory" (pyLower "Weather") = false ∧
    (route_request exConfig exDB (.ok "Weather") (.ok "72F")
        "mallory" "q").result =
      .ok ⟨"success", denialMessage "mallory" "Weather"⟩ :=
  C10_unknown_user_denied exConfig exDB (.ok "Weather") (.ok "72F")
    "mallory" "q" "Weather" rfl (by decide) rfl

end EnterpriseMcp

namespace EnterpriseMcp

/-! ### C9 helper lemmas -/

/-- A stored user's id is strictly below the next autoincremented id. -/
theorem id_lt_nextUserId (db : DB) (u : User) (hu : u ∈ db.users) :
    u.id < nextUserId db :=
  Nat.lt_succ_of_le (le_foldr_max (fun x => x.id) db.users u hu)

/-- A stored server's id is strictly below the next autoincremented id. -/
theorem id_lt_nextServerId (db : DB) (s : Server) (hs : s ∈ db.servers) :
    s.id < nextServerId db :=
  Nat.lt_succ_of_le (le_foldr_max (fun x => x.id) db.servers s hs)

/-- A stored role's id is strictly below the next autoincremented id. -/
theorem id_lt_nextRoleId (db : DB) (r : RoleHierarchy) (hr : r ∈ db.roles) :
    r.id < nextRoleId db :=
  Nat.lt_succ_of_le (le_foldr_max (fun x => x.id) db.roles r hr)

/-- Reading a freshly created user back by its id returns it. -/
theorem create_user_get_by_id (db : DB) (uname : String) (r : Int) :
    get_user (create_user db uname r).1 (create_user db uname r).2.id =
      some (create_user db uname r).2 := by
  show get_user { db with users := db.users ++ [⟨nextUserId db, uname, r⟩] }
    (nextUserId db) = some ⟨nextUserId db, uname, r⟩
  unfold get_user
  rw [find?_append_none]
  · simp
  · rw [List.find?_eq_none]
    intro x hx
    simp only [beq_iff_eq]
    exact Nat.ne_of_lt (id_lt_nextUserId db x hx)

/-- Reading a freshly created user back by its (unique) name returns it. -/
theorem create_user_get_by_name (db : DB) (uname : String) (r : Int)
    (hu : get_user_by_name db uname = none) :
    get_user_by_name (create_user db uname r).1 uname =
      some (create_user db uname r).2 := by
  show get_user_by_name
    { db with users := db.users ++ [⟨nextUserId db, uname, r⟩] } uname =
    some ⟨nextUserId db, uname, r⟩
  unfold get_user_by_name at hu ⊢
  rw [find?_append_none _ _ _ hu]
  simp

/-- Reading a freshly created server back by its id returns it. -/
theorem create_server_get_by_id (db : DB) (sname : String) (req : Int) :
    get_server (create_server db sname req).1
      (create_server db sname req).2.id =
      some (create_server db sname req).2 := by
  show get_server
    { db with servers := db.servers ++ [⟨nextServerId db, sname, req⟩] }
    (nextServerId db) = some ⟨nextServerId db, sname, req⟩
  unfold get_server
  rw [find?_append_none]
  · simp
  · rw [List.find?_eq_none]
    intro x hx
    simp only [beq_iff_eq]
    exact Nat.ne_of_lt (id_lt_nextServerId db x hx)

/-- Reading a freshly created server back by its (unique) name returns it. -/
theorem create_server_get_by_name (db : DB) (sname : String) (req : Int)
    (hs : get_server_by_name db sname = none) :
    get_server_by_name (create_server db sname req).1 sname =
      some (create_server db sname req).2 := by
  show get_server_by_name
    { db with servers := db.servers ++ [⟨nextServerId db, sname, req⟩] }
    sname = some ⟨nextServerId db, sname, req⟩
  unfold get_server_by_name at hs ⊢
  rw [find?_append_none _ _ _ hs]
  simp

/-- Reading a freshly created role back by its id returns it. -/
theorem create_role_get_by_id (db : DB) (rname : String) (lvl : Int) :
    get_role (create_role db rname lvl).1 (create_role db rname lvl).2.id =
      some (create_role db rname lvl).2 := by
  show get_role { db with roles := db.roles ++ [⟨nextRoleId db, rname, lvl⟩] }
    (nextRoleId db) = some ⟨nextRoleId db, rname, lvl⟩
  unfold get_role
  rw [find?_append_none]
  · simp
  · rw [List.find?_eq_none]
    intro x hx
    simp only [beq_iff_eq]
    exact Nat.ne_of_lt (id_lt_nextRoleId db x hx)

/-- Reading a freshly created role back by its (unique) name returns it. -/
theorem create_role_get_by_name (db : DB) (rname : String) (lvl : Int)
    (hr : get_role_by_name db rname = none) :
    get_role_by_name (create_role db rname lvl).1 rname =
      some (create_role db rname lvl).2 := by
  show get_role_by_name
    { db with roles := db.roles ++ [⟨nextRoleId db, rname, lvl⟩] } rname =
    some ⟨nextRoleId db, rname, lvl⟩
  unfold get_role_by_name at hr ⊢
  rw [find?_append_none _ _ _ hr]
  simp

/-- Reading a user back after `update_user_role` returns the new role with
id and username unchanged. -/
theorem update_user_role_get (db : DB) (uid : Nat) (u0 : User) (nr : Int)
    (hu0 : get_user db uid = some u0) :
    get_user (update_user_role db uid nr).1 uid =
      some ⟨u0.id, u0.username, nr⟩ ∧
    (update_user_role db uid nr).2 = some ⟨u0.id, u0.username, nr⟩ := by
  have hp : (u0.id == uid) = true :=
    List.find?_some (p := fun u : User => u.id == uid) hu0
  constructor
  · simp only [update_user_role, hu0]
    unfold get_user
    rw [find?_map_pres (fun u : User => u.id == uid)
      (fun u : User => if u.id == uid then { u with role := nr } else u)
      db.users (by intro x; by_cases h : x.id == uid <;> simp [h])]
    unfold get_user at hu0
    rw [hu0]
    show some (if u0.id == uid then { u0 with role := nr } else u0) =
      some ⟨u0.id, u0.username, nr⟩
    rw [if_pos hp]
  · simp only [update_user_role, hu0]

/-- Reading a server back after `update_server_role` returns the new
required role with id and name unchanged. -/
theorem update_server_role_get (db : DB) (sid : Nat) (s0 : Server)
    (nsr : Int) (hs0 : get_server db sid = some s0) :
    get_server (update_server_role db sid nsr).1 sid =
      some ⟨s0.id, s0.name, nsr⟩ ∧
    (update_server_role db sid nsr).2 = some ⟨s0.id, s0.name, nsr⟩ := by
  have hp : (s0.id == sid) = true :=
    List.find?_some (p := fun s : Server => s.id == sid) hs0
  constructor
  · simp only [update_server_role, hs0]
    unfold get_server
    rw [find?_map_pres (fun s : Server => s.id == sid)
      (fun s : Server => if s.id == sid
        then { s with required_role := nsr } else s)
      db.servers (by intro x; by_cases h : x.id == sid <;> simp [h])]
    unfold get_server at hs0
    rw [hs0]
    show some (if s0.id == sid then { s0 with required_role := nsr } else s0) =
      some ⟨s0.id, s0.name, nsr⟩
    rw [if_pos hp]
  · simp only [update_server_role, hs0]

end EnterpriseMcp

namespace EnterpriseMcp

/-! ### C9 -/

/-- C9: creating a User, Server, or RoleHierarchy record and reading it
back by its id or its unique name returns exactly the fields written; and
updating a user's role (`update_user_role`) or a server's required role
(`update_server_role`) and reading the record back returns the new level
with every other field of the record unchanged. -/
theorem C9_roundtrip (db : DB) (uname sname rname : String)
    (r req lvl : Int) (uid sid : Nat) (u0 : User) (s0 : Server)
    (nr nsr : Int)
    (hu : get_user_by_name db uname = none)
    (hs : get_server_by_name db sname = none)
    (hrn : get_role_by_name db rname = none)
    (hu0 : get_user db uid = some u0)
    (hs0 : get_server db sid = some s0) :
    ((create_user db uname r).2.username = uname ∧
      (create_user db uname r).2.role = r ∧
      get_user (create_user db uname r).1 (create_user db uname r).2.id =
        some (create_user db uname r).2 ∧
      get_user_by_name (create_user db uname r).1 uname =
        some (create_user db uname r).2) ∧
    ((create_server db sname req).2.name = sname ∧
      (create_server db sname req).2.required_role = req ∧
      get_server (create_server db sname req).1
        (create_server db sname req).2.id =
        some (create_server db sname req).2 ∧
      get_server_by_name (create_server db sname req).1 sname =
        some (create_server db sname req).2) ∧
    ((create_role db rname lvl).2.role_name = rname ∧
      (create_role db rname lvl).2.level = lvl ∧
      get_role (create_role db rname lvl).1 (create_role db rname lvl).2.id =
        some (create_role db rname lvl).2 ∧
      get_role_by_name (create_role db rname lvl).1 rname =
        some (create_role db rname lvl).2) ∧
    (get_user (update_user_role db uid nr).1 uid =
        some ⟨u0.id, u0.username, nr⟩ ∧
      (update_user_role db uid nr).2 = some ⟨u0.id, u0.username, nr⟩) ∧
    (get_server (update_server_role db sid nsr).1 sid =
        some ⟨s0.id, s0.name, nsr⟩ ∧
      (update_server_role db sid nsr).2 = some ⟨s0.id, s0.name, nsr⟩) :=
  ⟨⟨rfl, rfl, create_user_get_by_id db uname r,
      create_user_get_by_name db uname r hu⟩,
    ⟨rfl, rfl, create_server_get_by_id db sname req,
      create_server_get_by_name db sname req hs⟩,
    ⟨rfl, rfl, create_role_get_by_id db rname lvl,
      create_role_get_by_name db rname lvl hrn⟩,
    update_user_role_get db uid u0 nr hu0,
    update_server_role_get db sid s0 nsr hs0⟩

/-- Witness for C9 at the concrete store: create `"carol"`, bump alice's
role from 3 to 5, bump the filesystem server's requirement from 5 to 3. -/
theorem C9_witness :
    get_user_by_name (create_user exDB "carol" 2).1 "carol" =
      some (create_user exDB "carol" 2).2 ∧
    get_user (update_user_role exDB 1 5).1 1 = some ⟨1, "alice", 5⟩ ∧
    get_server (update_server_role exDB 2 3).1 2 =
      some ⟨2, "filesystem", 3⟩ :=
  have h := C9_roundtrip exDB "carol" "printer" "guest" 2 4 1 1 2
    ⟨1, "alice", 3⟩ ⟨2, "filesystem", 5⟩ 5 3 rfl rfl rfl rfl rfl
  ⟨h.1.2.2.2, h.2.2.2.1.1, h.2.2.2.2.1⟩

end EnterpriseMcp
